import Mathlib

/-!
Shallow embedding of the order lifecycle and assignment engine of the
delivery-bot backend (`src/orders/service.py`), together with the data model
it operates on (`src/models/zone.py`, `src/models/courier.py`,
`src/models/order.py`, `src/schemas/order.py`, `src/common/enums.py`).

Conventions of the embedding:
- Monetary amounts (`DECIMAL(10, 2)` columns, Python floats in the schemas)
  are modelled as integers: every constant in the source's pricing rules
  (3000, 1000, 500, 0) is a whole number of currency units.
- `DateTime` values and `func.now()` are modelled as integers (seconds);
  each operation that stamps a time takes the current time `now` as an
  explicit argument.
- The database session is modelled as an explicit state `DB` holding the rows
  of the `zones`, `couriers` and `orders` tables; `db.get(Model, id)` becomes
  a lookup of the first row with the given id, and in-place mutation of a
  fetched row followed by `db.commit()` becomes replacement of the rows with
  that id.
- Raised Python exceptions become `Except.error` values carrying the
  exception class and message. The guard failures raise `ValueError` before
  mutating, so for them an error leaves the state unchanged;
  `update_order_status` and `confirm_order` can commit and only then raise
  while serializing the response, so they return the committed state
  alongside the outcome.
- The `Order` model defines no `confirmed_at` / `autoconfirmed_at` columns:
  the service's writes to these names are unmapped, never-persisted instance
  attributes; the class-level access `Order.confirmed_at` in the sweep's
  query raises `AttributeError`; and a written unmapped attribute (holding
  the raw `func.now()` expression) makes the final `OrderResponse.from_orm`
  raise a pydantic `ValidationError`.
- Columns never read or written by the engine (e.g. `Zone.name`,
  `Zone.radius_km`, photo-report relations) are omitted from the row records.
-/

/-- Monetary amount in whole currency units. -/
abbrev Money := Int

/-- Point in time, in seconds. -/
abbrev Timestamp := Int

/-- `OrderStatus` from `src/common/enums.py`. -/
inductive OrderStatus
  | created
  | accepted
  | picking_up
  | in_progress
  | delivered
  | completed
  | cancelled
  | disputed
  deriving DecidableEq

/-- `OrderType` from `src/common/enums.py`. -/
inductive OrderType
  | normal
  | special
  | rush_hour
  | long_distance
  | important
  deriving DecidableEq

/-- Row of the `zones` table (`src/models/zone.py`). -/
structure Zone where
  id : Int
  base_price : Money
  deriving DecidableEq

/-- Row of the `couriers` table (`src/models/courier.py`). -/
structure Courier where
  id : Int
  is_active : Bool
  current_orders : Int
  max_orders : Int
  deriving DecidableEq

/-- Row of the `orders` table (`src/models/order.py`). The model maps the
lifecycle timestamps `accepted_at` and `delivered_at` only: it defines no
`confirmed_at` or `autoconfirmed_at` column, although the service layer and
the `OrderResponse` schema refer to attributes of those names. -/
structure Order where
  id : Int
  shop_id : Int
  zone_id : Int
  courier_id : Option Int
  status : OrderStatus
  order_type : OrderType
  description : String
  recipient_name : String
  recipient_phone : String
  recipient_address : String
  delivery_time : Option Timestamp
  price : Money
  pickup_address : String
  courier_notes : Option String
  is_fragile : Bool
  is_bulky : Bool
  special_reason : Option String
  zone_addon : Money
  rush_hour_addon : Money
  courier_rating : Option Int
  courier_feedback : Option String
  accepted_at : Option Timestamp
  delivered_at : Option Timestamp
  deriving DecidableEq

/-- The `OrderCreate` schema (`src/schemas/order.py`) as consumed by
`create_order`, including the `shop_id` attribute the service reads from it. -/
structure OrderCreate where
  shop_id : Int
  zone_id : Int
  order_type : OrderType
  zone_addon : Money
  rush_hour_addon : Money
  description : Option String
  recipient_name : Option String
  recipient_phone : String
  recipient_address : String
  delivery_time : Option Timestamp
  pickup_address : String
  is_fragile : Bool
  is_bulky : Bool
  special_reason : Option String
  deriving DecidableEq

/-- A Python exception as observed by a caller of the engine: the guard
failures in `src/orders/service.py` raise `ValueError`; building the
auto-confirm query raises `AttributeError` (class-level access to the
nonexistent `Order.confirmed_at`); serializing a response whose unmapped
`confirmed_at` attribute holds a raw `func.now()` expression raises a
pydantic `ValidationError`. -/
inductive PyError
  | valueError (msg : String)
  | attributeError (msg : String)
  | validationError (msg : String)
  deriving DecidableEq

/-- The exception class of a raised error, as a caller catching by type
would see it. -/
def PyError.className : PyError → String
  | .valueError _ => "ValueError"
  | .attributeError _ => "AttributeError"
  | .validationError _ => "ValidationError"

/-- The message of a raised error. -/
def PyError.message : PyError → String
  | .valueError m => m
  | .attributeError m => m
  | .validationError m => m

/-- Database state: the rows of the three tables the engine touches. -/
structure DB where
  zones : List Zone
  couriers : List Courier
  orders : List Order
  deriving DecidableEq

/-- `db.get(Zone, zone_id)`. -/
def getZone (db : DB) (zone_id : Int) : Option Zone :=
  db.zones.find? (fun z => decide (z.id = zone_id))

/-- `db.get(Courier, courier_id)`. -/
def getCourier (db : DB) (courier_id : Int) : Option Courier :=
  db.couriers.find? (fun c => decide (c.id = courier_id))

/-- `db.get(Order, order_id)`. -/
def getOrder (db : DB) (order_id : Int) : Option Order :=
  db.orders.find? (fun o => decide (o.id = order_id))

/-- Committing an in-place mutation of a fetched order row: every row with
the mutated row's id is replaced by the mutated row. -/
def putOrder (orders : List Order) (o : Order) : List Order :=
  orders.map (fun x => if x.id = o.id then o else x)

/-- Committing an in-place mutation of a fetched courier row. -/
def putCourier (couriers : List Courier) (c : Courier) : List Courier :=
  couriers.map (fun x => if x.id = c.id then c else x)

/-- Autoincrement primary key for a freshly inserted order. -/
def nextOrderId (db : DB) : Int :=
  (db.orders.map (fun o => o.id)).foldl max 0 + 1

/-- Python truthiness of an optional string (`if courier_notes:`,
`if feedback:`): `None` and the empty string are falsy. -/
def pyTruthy : Option String → Bool
  | none => false
  | some s => decide (s ≠ "")

/-- `create_order` (`src/orders/service.py`, lines 13-65): computes the price
from the zone's base price, the order type and the addons (mutating the
incoming `order_data` addons when a default applies), and inserts the new
order in status `created` with no courier. -/
def create_order (db : DB) (order_data : OrderCreate) : Except PyError (DB × Order) :=
  match getZone db order_data.zone_id with
  | none => .error (.valueError "Указанная зона не найдена")
  | some zone =>
    let base_price := zone.base_price
    -- the if/elif chain over `order_data.order_type`
    let step : Money × OrderCreate :=
      if order_data.order_type = OrderType.special then
        (base_price, order_data)
      else if order_data.order_type = OrderType.rush_hour then
        (base_price,
          if order_data.rush_hour_addon = 0 then
            { order_data with rush_hour_addon := 1000 }
          else order_data)
      else if order_data.order_type = OrderType.long_distance then
        (base_price,
          if order_data.zone_addon = 0 then
            { order_data with zone_addon := 500 }
          else order_data)
      else if order_data.order_type = OrderType.important then
        (0, order_data)
      else
        (base_price, order_data)
    let base_price := step.1
    let od := step.2
    let total_price := base_price + od.zone_addon + od.rush_hour_addon
    let order : Order :=
      { id := nextOrderId db
        shop_id := od.shop_id
        zone_id := od.zone_id
        courier_id := none
        status := OrderStatus.created
        order_type := od.order_type
        description := od.description.getD ""
        recipient_name := od.recipient_name.getD ""
        recipient_phone := od.recipient_phone
        recipient_address := od.recipient_address
        delivery_time := od.delivery_time
        price := total_price
        pickup_address := od.pickup_address
        courier_notes := none
        is_fragile := od.is_fragile
        is_bulky := od.is_bulky
        special_reason := od.special_reason
        zone_addon := od.zone_addon
        rush_hour_addon := od.rush_hour_addon
        courier_rating := none
        courier_feedback := none
        accepted_at := none
        delivered_at := none }
    .ok ({ db with orders := db.orders ++ [order] }, order)

/-- The first filter of the availability query (line 95 of
`src/orders/service.py`) is the Python expression `Courier.is_active is True`:
an identity comparison between the SQLAlchemy column object and the constant
`True`, evaluated while building the query. The column object is not the
object `True`, so the expression is the constant `False`. -/
def is_active_identity_check : Bool := false

/-- `get_available_couriers` (`src/orders/service.py`, lines 89-98): couriers
matching `and_(Courier.is_active is True, Courier.current_orders <
Courier.max_orders)`. -/
def get_available_couriers (db : DB) : List Courier :=
  db.couriers.filter
    (fun c => is_active_identity_check && decide (c.current_orders < c.max_orders))

/-- `assign_courier_manually` (`src/orders/service.py`, lines 101-132). -/
def assign_courier_manually (db : DB) (order_id courier_id : Int) (now : Timestamp) :
    Except PyError (DB × Order) :=
  match getOrder db order_id with
  | none => .error (.valueError ("Заказ " ++ toString order_id ++ " не найден"))
  | some order =>
    if order.status ≠ OrderStatus.created then
      .error (.valueError "Нельзя назначить курьера на заказ не в статусе 'created'")
    else
      -- `if not courier or not courier.is_active`
      match getCourier db courier_id with
      | none => .error (.valueError "Курьер недоступен")
      | some courier =>
        if courier.is_active = false then
          .error (.valueError "Курьер недоступен")
        else if courier.current_orders ≥ courier.max_orders then
          .error (.valueError "У курьера нет свободных слотов")
        else
          let order2 := { order with
            courier_id := some courier_id
            status := OrderStatus.accepted
            accepted_at := some now }
          let courier2 := { courier with current_orders := courier.current_orders + 1 }
          .ok ({ db with
                  orders := putOrder db.orders order2
                  couriers := putCourier db.couriers courier2 }, order2)

/-- Python's `min(couriers, key=lambda c: c.current_orders)`: the first
element of the list attaining the minimal key; `none` on the empty list. -/
def minByCurrentOrders : List Courier → Option Courier
  | [] => none
  | c :: cs =>
    some (cs.foldl (fun best x => if x.current_orders < best.current_orders then x else best) c)

/-- `assign_courier_automatically` (`src/orders/service.py`, lines 135-164).
Returns `none` in the second component when no courier is available. -/
def assign_courier_automatically (db : DB) (order_id : Int) (now : Timestamp) :
    Except PyError (DB × Option Order) :=
  match getOrder db order_id with
  | none => .error (.valueError ("Заказ " ++ toString order_id ++ " не найден"))
  | some order =>
    if order.order_type ≠ OrderType.special then
      .error (.valueError "Автоматическое назначение доступно только для заказов типа 'special'")
    else if order.status ≠ OrderStatus.created then
      .error (.valueError "Заказ уже назначен")
    else
      match minByCurrentOrders (get_available_couriers db) with
      | none => .ok (db, none)  -- Нет доступных курьеров
      | some courier =>
        let order2 := { order with
          courier_id := some courier.id
          status := OrderStatus.accepted
          accepted_at := some now }
        let courier2 := { courier with current_orders := courier.current_orders + 1 }
        .ok ({ db with
                orders := putOrder db.orders order2
                couriers := putCourier db.couriers courier2 }, some order2)

/-- The `AttributeError` raised by the class-level access
`Order.confirmed_at` while the auto-confirm query is being built
(`src/orders/service.py`, line 236): `src/models/order.py` defines no such
column, so the declarative class has no such attribute. -/
def order_confirmed_at_attribute_error : PyError :=
  .attributeError "type object 'Order' has no attribute 'confirmed_at'"

/-- The pydantic `ValidationError` raised by `OrderResponse.from_orm` when
the order instance carries an unmapped `confirmed_at` attribute holding the
raw `func.now()` expression (written by `update_order_status` line 192 or
`confirm_order` line 217): the expression object does not validate against
`datetime | None`. -/
def confirmed_at_validation_error : PyError :=
  .validationError "OrderResponse.confirmed_at: значение func.now() не является datetime"

/-- `update_order_status` (`src/orders/service.py`, lines 167-202): stores
the new status unconditionally, walks the if/elif chain over
`(new_status, old_status)` for timestamp side effects, overwrites
`courier_notes` when the argument is truthy, and commits. The
`completed`/`delivered` branch assigns `order.confirmed_at` — an attribute
the model does not map — so it persists nothing, and after the commit the
response serialization raises on the dangling `func.now()` value; the
committed state is therefore returned alongside the outcome. -/
def update_order_status (db : DB) (order_id : Int) (new_status : OrderStatus)
    (courier_notes : Option String) (now : Timestamp) : DB × Except PyError Order :=
  match getOrder db order_id with
  | none => (db, .error (.valueError ("Заказ " ++ toString order_id ++ " не найден")))
  | some order =>
    let old_status := order.status
    let order2 := { order with status := new_status }
    let order3 :=
      if new_status = OrderStatus.picking_up ∧ old_status = OrderStatus.accepted then
        { order2 with accepted_at := some now }  -- уже установлено ранее
      else if new_status = OrderStatus.in_progress ∧ old_status = OrderStatus.picking_up then
        order2
      else if new_status = OrderStatus.delivered ∧ old_status = OrderStatus.in_progress then
        { order2 with delivered_at := some now }
      else if new_status = OrderStatus.completed ∧ old_status = OrderStatus.delivered then
        order2  -- `order.confirmed_at = now`: unmapped attribute, no column changes
      else if new_status = OrderStatus.disputed then
        order2
      else
        order2
    let order4 :=
      if pyTruthy courier_notes then { order3 with courier_notes := courier_notes } else order3
    let db2 := { db with orders := putOrder db.orders order4 }
    if new_status = OrderStatus.completed ∧ old_status = OrderStatus.delivered then
      (db2, .error confirmed_at_validation_error)
    else
      (db2, .ok order4)

/-- `confirm_order` (`src/orders/service.py`, lines 205-221): requires
status `delivered`, commits `status = completed` — the accompanying
`order.confirmed_at = func.now()` targets an unmapped attribute and persists
nothing — and then raises while serializing the response, so the success
path never returns a row. -/
def confirm_order (db : DB) (order_id : Int) (now : Timestamp) :
    DB × Except PyError Order :=
  match getOrder db order_id with
  | none => (db, .error (.valueError ("Заказ " ++ toString order_id ++ " не найден")))
  | some order =>
    if order.status ≠ OrderStatus.delivered then
      (db, .error (.valueError "Можно подтвердить только доставленный заказ"))
    else
      let order2 := { order with status := OrderStatus.completed }
      ({ db with orders := putOrder db.orders order2 },
        .error confirmed_at_validation_error)

/-- The 12-hour grace period the auto-confirm sweep was meant to apply
(`timedelta(hours=12)`), in seconds. -/
def twelve_hours : Timestamp := 12 * 60 * 60

/-- `auto_confirm_orders` (`src/orders/service.py`, lines 224-250): computes
`cutoff_time = func.now() - timedelta(hours=12)` (an expression, no error)
and then builds `select(Order).where(and_(Order.status == ...,
Order.delivered_at < cutoff_time, Order.confirmed_at.is_(None),
Order.autoconfirmed_at.is_(None)))`. The class-level access
`Order.confirmed_at` (line 236) raises `AttributeError` before the query
reaches the database — the model defines no such column — so every call
fails with no row selected, no order changed and no count returned. -/
def auto_confirm_orders (db : DB) (now : Timestamp) : DB × Except PyError Nat :=
  (db, .error order_confirmed_at_attribute_error)

/-- `rate_courier` (`src/orders/service.py`, lines 253-278). -/
def rate_courier (db : DB) (order_id : Int) (rating : Int) (feedback : Option String) :
    Except PyError (DB × Order) :=
  if ¬ (1 ≤ rating ∧ rating ≤ 5) then
    .error (.valueError "Оценка должна быть от 1 до 5")
  else
    match getOrder db order_id with
    | none => .error (.valueError ("Заказ " ++ toString order_id ++ " не найден"))
    | some order =>
      if order.status ≠ OrderStatus.completed ∧ order.status ≠ OrderStatus.disputed then
        .error (.valueError "Можно оценить только выполненный заказ")
      else if order.courier_rating ≠ none then
        .error (.valueError "Заказ уже оценен")
      else
        let order2 := { order with courier_rating := some rating }
        let order3 :=
          if pyTruthy feedback then { order2 with courier_feedback := feedback } else order2
        .ok ({ db with orders := putOrder db.orders order3 }, order3)

/-- One call into the engine, with the wall-clock time the call observes. -/
inductive Op
  | createOrder (order_data : OrderCreate)
  | assignManual (order_id courier_id : Int) (now : Timestamp)
  | assignAuto (order_id : Int) (now : Timestamp)
  | updateStatus (order_id : Int) (new_status : OrderStatus)
      (courier_notes : Option String) (now : Timestamp)
  | confirmOrder (order_id : Int) (now : Timestamp)
  | autoConfirm (now : Timestamp)
  | rateCourier (order_id rating : Int) (feedback : Option String)
  deriving DecidableEq

/-- Effect of one engine call on the database: a raised error leaves the
state unchanged (every raise in the source happens before any mutation, and
mutations commit together at the end of the call). -/
def step (db : DB) : Op → DB
  | .createOrder od =>
    match create_order db od with
    | .ok (db2, _) => db2
    | .error _ => db
  | .assignManual oid cid now =>
    match assign_courier_manually db oid cid now with
    | .ok (db2, _) => db2
    | .error _ => db
  | .assignAuto oid now =>
    match assign_courier_automatically db oid now with
    | .ok (db2, _) => db2
    | .error _ => db
  | .updateStatus oid st notes now => (update_order_status db oid st notes now).1
  | .confirmOrder oid now => (confirm_order db oid now).1
  | .autoConfirm now => (auto_confirm_orders db now).1
  | .rateCourier oid rating fb =>
    match rate_courier db oid rating fb with
    | .ok (db2, _) => db2
    | .error _ => db

/-- Sequential execution of a list of engine calls. -/
def run (db : DB) (ops : List Op) : DB :=
  ops.foldl step db

/-- An operation is one of the two courier-assignment calls. -/
def Op.isAssign : Op → Prop
  | .assignManual _ _ _ => True
  | .assignAuto _ _ => True
  | _ => False

/-- The capacity invariant on one courier row:
`0 ≤ current_orders ≤ max_orders`. -/
def courierCapacityOk (c : Courier) : Prop :=
  0 ≤ c.current_orders ∧ c.current_orders ≤ c.max_orders

instance : DecidablePred courierCapacityOk := fun c =>
  inferInstanceAs (Decidable (_ ∧ _))

/-- The capacity invariant over the whole courier table. -/
def dbCapacityOk (db : DB) : Prop :=
  ∀ c ∈ db.couriers, courierCapacityOk c

instance : DecidablePred dbCapacityOk := fun db =>
  List.decidableBAll courierCapacityOk db.couriers

/-- A minimal order row used as a concrete test fixture; only the fields a
given scenario cares about are overridden at the use site. -/
def mkOrder (id : Int) (ty : OrderType) (st : OrderStatus) : Order :=
  { id := id
    shop_id := 1
    zone_id := 1
    courier_id := none
    status := st
    order_type := ty
    description := ""
    recipient_name := ""
    recipient_phone := ""
    recipient_address := ""
    delivery_time := none
    price := 0
    pickup_address := ""
    courier_notes := none
    is_fragile := false
    is_bulky := false
    special_reason := none
    zone_addon := 0
    rush_hour_addon := 0
    courier_rating := none
    courier_feedback := none
    accepted_at := none
    delivered_at := none }

/-! ### General helper lemmas -/

/-- A successful order lookup returns a row of the table whose id is the one
asked for. -/
theorem getOrder_mem_and_id {db : DB} {oid : Int} {o : Order}
    (h : getOrder db oid = some o) : o ∈ db.orders ∧ o.id = oid := by
  refine ⟨List.mem_of_find?_eq_some h, ?_⟩
  have h2 := List.find?_some h
  simpa using h2

/-- A successful courier lookup returns a row of the table whose id is the
one asked for. -/
theorem getCourier_mem_and_id {db : DB} {cid : Int} {c : Courier}
    (h : getCourier db cid = some c) : c ∈ db.couriers ∧ c.id = cid := by
  refine ⟨List.mem_of_find?_eq_some h, ?_⟩
  have h2 := List.find?_some h
  simpa using h2

/-- Replacing some elements of a list by a fixed element preserves a
pointwise property, provided the replacement itself has the property. -/
theorem forall_mem_replace {α : Type} {P : α → Prop} {l : List α} {y : α}
    {c : α → Prop} [DecidablePred c]
    (h : ∀ x ∈ l, P x) (hy : P y) :
    ∀ x ∈ l.map (fun a => if c a then y else a), P x := by
  intro x hx
  rcases List.mem_map.1 hx with ⟨a, ha, rfl⟩
  by_cases hc : c a
  · simpa [hc] using hy
  · simpa [hc] using h a ha

/-- The availability query never returns anything: its first conjunct is the
constant-false identity comparison `Courier.is_active is True`. -/
theorem get_available_couriers_eq_nil (db : DB) : get_available_couriers db = [] := by
  simp [get_available_couriers, is_active_identity_check]

/-- Every outcome of `assign_courier_automatically` leaves the database
unchanged: the error paths raise before mutating, and the success path never
finds a candidate because the availability query is identically empty. -/
theorem step_assignAuto_eq (db : DB) (oid : Int) (now : Timestamp) :
    step db (.assignAuto oid now) = db := by
  simp only [step]
  cases h : getOrder db oid with
  | none => unfold assign_courier_automatically; rw [h]
  | some o =>
    unfold assign_courier_automatically
    rw [h]
    by_cases h1 : o.order_type = OrderType.special
    · by_cases h2 : o.status = OrderStatus.created
      · simp [h1, h2, get_available_couriers_eq_nil, minByCurrentOrders]
      · simp [h1, h2]
    · simp [h1]

/-- Replacing, in a list of orders, every row carrying the id of the row
`find?` located by a new row with the same id makes `find?` locate the new
row. -/
theorem find?_map_replace {l : List Order} {oid : Int} {o o2 : Order}
    (h : l.find? (fun x => decide (x.id = oid)) = some o) (hid : o2.id = o.id) :
    (l.map (fun x => if x.id = o2.id then o2 else x)).find?
      (fun x => decide (x.id = oid)) = some o2 := by
  have hoid : o.id = oid := by simpa using List.find?_some h
  induction l with
  | nil => simp at h
  | cons a l ih =>
    by_cases ha : a.id = oid
    · have hao : a = o := by
        rw [List.find?_cons_of_pos _ (by simpa using ha)] at h
        exact Option.some.inj h
      have ha2 : a.id = o2.id := by rw [hao, hid]
      simp only [List.map_cons, if_pos ha2]
      rw [List.find?_cons_of_pos _ (by simpa using hid.trans hoid)]
    · have ha2 : ¬ a.id = o2.id := fun hh => ha (by rw [hh, hid, hoid])
      rw [List.find?_cons_of_neg _ (by simpa using ha)] at h
      simp only [List.map_cons, if_neg ha2]
      rw [List.find?_cons_of_neg _ (by simpa using ha)]
      exact ih h

/-- After committing a mutated order row, looking the id up returns the
mutated row. -/
theorem getOrder_putOrder {db : DB} {oid : Int} {o o2 : Order}
    (h : getOrder db oid = some o) (hid : o2.id = o.id) :
    getOrder { db with orders := putOrder db.orders o2 } oid = some o2 := by
  unfold getOrder putOrder
  exact find?_map_replace h hid

/-! ### C5: automatic assignment always returns `None` -/

/-- C5: for every database state and every special-type order in status
`created`, `assign_courier_automatically` returns `None` and leaves the
database (the order and every courier) unchanged, because the availability
query's `Courier.is_active is True` filter is identically false. -/
theorem auto_assign_always_none (db : DB) (oid : Int) (now : Timestamp) (o : Order)
    (h : getOrder db oid = some o)
    (hty : o.order_type = OrderType.special)
    (hst : o.status = OrderStatus.created) :
    assign_courier_automatically db oid now = .ok (db, none) := by
  unfold assign_courier_automatically
  simp [h, hty, hst, get_available_couriers_eq_nil, minByCurrentOrders]

/-- Fixture for C5: an active courier with spare capacity exists, yet no
assignment happens. -/
def db5 : DB :=
  { zones := []
    couriers := [{ id := 1, is_active := true, current_orders := 0, max_orders := 5 }]
    orders := [mkOrder 1 OrderType.special OrderStatus.created] }

/-- C5 witness: concrete run of the theorem on `db5`. -/
theorem auto_assign_always_none_witness :
    assign_courier_automatically db5 1 0 = .ok (db5, none) :=
  auto_assign_always_none db5 1 0 (mkOrder 1 OrderType.special OrderStatus.created)
    (by decide) (by decide) (by decide)

/-! ### C4: the intended candidate set is never computed (code bug) -/

/-- Fixture for C4: courier 1 is active with `current_orders = 0 <
max_orders = 5`, order 1 is a special order in status `created`. -/
def db4 : DB :=
  { zones := []
    couriers := [{ id := 1, is_active := true, current_orders := 0, max_orders := 5 }]
    orders := [mkOrder 1 OrderType.special OrderStatus.created] }

/-- C4: evaluation of the code at the failing input. The claim (and the
spec) say the candidate set is exactly the active couriers with spare
capacity and that the least-loaded one is assigned; the code computes an
empty candidate set even though such a courier exists, returns `None`, and
mutates nothing. -/
theorem auto_assign_candidate_set_bug :
    (∃ c ∈ db4.couriers, c.is_active = true ∧ c.current_orders < c.max_orders) ∧
    get_available_couriers db4 = [] ∧
    assign_courier_automatically db4 1 0 = .ok (db4, none) := by
  refine ⟨⟨{ id := 1, is_active := true, current_orders := 0, max_orders := 5 },
    by decide, by decide, by decide⟩, rfl, rfl⟩

/-! ### C2: the pricing rule of `create_order` -/

/-- C2: for every successful `create_order` call, the stored price is
`base_component + zone_addon + rush_hour_addon` where the base component is
the zone's base price except for `important` orders (base 0), the
`rush_hour` addon is defaulted to 1000 when supplied as 0 on a `rush_hour`
order, and the zone addon is defaulted to 500 when supplied as 0 on a
`long_distance` order; in particular a `normal` order with both addons 0 is
priced at the zone's base price, and an `important` order at the sum of its
addons. -/
theorem create_order_price_formula (db : DB) (od : OrderCreate) (z : Zone)
    (db2 : DB) (o : Order)
    (hz : getZone db od.zone_id = some z)
    (h : create_order db od = .ok (db2, o)) :
    o.rush_hour_addon =
      (if od.order_type = OrderType.rush_hour ∧ od.rush_hour_addon = 0 then 1000
        else od.rush_hour_addon) ∧
    o.zone_addon =
      (if od.order_type = OrderType.long_distance ∧ od.zone_addon = 0 then 500
        else od.zone_addon) ∧
    o.price =
      (if od.order_type = OrderType.important then 0 else z.base_price) +
        o.zone_addon + o.rush_hour_addon ∧
    (od.order_type = OrderType.normal → od.zone_addon = 0 → od.rush_hour_addon = 0 →
      o.price = z.base_price) ∧
    (od.order_type = OrderType.important →
      o.price = od.zone_addon + od.rush_hour_addon) := by
  unfold create_order at h
  rw [hz] at h
  cases hty : od.order_type with
  | normal =>
    simp only [hty] at h
    simp only [Except.ok.injEq, Prod.mk.injEq] at h
    obtain ⟨rfl, rfl⟩ := h
    simp [hty]
    intro h1 h2
    simp [h1, h2]
  | special =>
    simp only [hty] at h
    simp only [Except.ok.injEq, Prod.mk.injEq] at h
    obtain ⟨rfl, rfl⟩ := h
    simp [hty]
  | rush_hour =>
    simp only [hty] at h
    by_cases hr : od.rush_hour_addon = 0
    · simp only [hr, hty] at h ⊢
      simp only [Except.ok.injEq, Prod.mk.injEq] at h
      obtain ⟨rfl, rfl⟩ := h
      simp
    · simp only [hty, if_neg hr] at h
      simp only [Except.ok.injEq, Prod.mk.injEq] at h
      obtain ⟨rfl, rfl⟩ := h
      simp [hr]
  | long_distance =>
    simp only [hty] at h
    by_cases hzad : od.zone_addon = 0
    · simp only [hzad, hty] at h ⊢
      simp only [Except.ok.injEq, Prod.mk.injEq] at h
      obtain ⟨rfl, rfl⟩ := h
      simp
    · simp only [hty, if_neg hzad] at h
      simp only [Except.ok.injEq, Prod.mk.injEq] at h
      obtain ⟨rfl, rfl⟩ := h
      simp [hzad]
  | important =>
    simp only [hty] at h
    simp only [Except.ok.injEq, Prod.mk.injEq] at h
    obtain ⟨rfl, rfl⟩ := h
    simp [hty]

/-- Fixture for C2: one zone with base price 3000. -/
def zoneA : Zone := { id := 1, base_price := 3000 }

/-- Fixture for C2: database holding only `zoneA`. -/
def dbA : DB := { zones := [zoneA], couriers := [], orders := [] }

/-- Fixture for C2: a `normal` order request with both addons 0. -/
def odA : OrderCreate :=
  { shop_id := 1
    zone_id := 1
    order_type := OrderType.normal
    zone_addon := 0
    rush_hour_addon := 0
    description := none
    recipient_name := none
    recipient_phone := "+70000000000"
    recipient_address := "получатель"
    delivery_time := none
    pickup_address := "магазин"
    is_fragile := false
    is_bulky := false
    special_reason := none }

/-- Fixture for C2: the row `create_order dbA odA` inserts. -/
def orderA : Order :=
  { id := 1
    shop_id := 1
    zone_id := 1
    courier_id := none
    status := OrderStatus.created
    order_type := OrderType.normal
    description := ""
    recipient_name := ""
    recipient_phone := "+70000000000"
    recipient_address := "получатель"
    delivery_time := none
    price := 3000
    pickup_address := "магазин"
    courier_notes := none
    is_fragile := false
    is_bulky := false
    special_reason := none
    zone_addon := 0
    rush_hour_addon := 0
    courier_rating := none
    courier_feedback := none
    accepted_at := none
    delivered_at := none }

/-- C2 witness: the concrete `normal` order with no addons in a
base-price-3000 zone is priced at 3000. -/
theorem create_order_price_formula_witness :
    create_order dbA odA = .ok ({ dbA with orders := [orderA] }, orderA) ∧
    orderA.price = 3000 :=
  ⟨rfl,
    (create_order_price_formula dbA odA zoneA { dbA with orders := [orderA] } orderA
      rfl rfl).2.2.2.1 rfl rfl rfl⟩

/-! ### C3: precondition order and errors of manual assignment -/

/-- C3 (amended): `assign_courier_manually` checks its preconditions in
order — order exists, order status is `created`, courier exists and is
active, courier has a free slot — the first violated one winning, and each
violation raises `ValueError` with a distinct message (so the failure kinds
are distinguishable only by message text, not by exception class); in
particular an assignment to a courier already at `max_orders` fails with the
no-free-slots `ValueError`. -/
theorem manual_assign_precondition_order (db : DB) (oid cid : Int) (now : Timestamp) :
    (getOrder db oid = none →
      assign_courier_manually db oid cid now =
        .error (.valueError ("Заказ " ++ toString oid ++ " не найден"))) ∧
    (∀ o, getOrder db oid = some o → o.status ≠ OrderStatus.created →
      assign_courier_manually db oid cid now =
        .error (.valueError "Нельзя назначить курьера на заказ не в статусе 'created'")) ∧
    (∀ o, getOrder db oid = some o → o.status = OrderStatus.created →
      getCourier db cid = none →
      assign_courier_manually db oid cid now =
        .error (.valueError "Курьер недоступен")) ∧
    (∀ o c, getOrder db oid = some o → o.status = OrderStatus.created →
      getCourier db cid = some c → c.is_active = false →
      assign_courier_manually db oid cid now =
        .error (.valueError "Курьер недоступен")) ∧
    (∀ o c, getOrder db oid = some o → o.status = OrderStatus.created →
      getCourier db cid = some c → c.is_active = true →
      c.max_orders ≤ c.current_orders →
      assign_courier_manually db oid cid now =
        .error (.valueError "У курьера нет свободных слотов")) ∧
    (("Заказ " ++ toString oid ++ " не найден") ≠
        "Нельзя назначить курьера на заказ не в статусе 'created'" ∧
      ("Заказ " ++ toString oid ++ " не найден") ≠ "Курьер недоступен" ∧
      ("Заказ " ++ toString oid ++ " не найден") ≠ "У курьера нет свободных слотов" ∧
      ("Нельзя назначить курьера на заказ не в статусе 'created'" : String) ≠
        "Курьер недоступен" ∧
      ("Нельзя назначить курьера на заказ не в статусе 'created'" : String) ≠
        "У курьера нет свободных слотов" ∧
      ("Курьер недоступен" : String) ≠ "У курьера нет свободных слотов") := by
  refine ⟨?_, ?_, ?_, ?_, ?_, ?_, ?_, ?_, ?_, ?_, ?_⟩
  · intro h
    unfold assign_courier_manually
    rw [h]
  · intro o h hst
    unfold assign_courier_manually
    rw [h]
    simp [hst]
  · intro o h hst hc
    unfold assign_courier_manually
    rw [h, hc]
    simp [hst]
  · intro o c h hst hc hact
    unfold assign_courier_manually
    rw [h, hc]
    simp [hst, hact]
  · intro o c h hst hc hact hcap
    unfold assign_courier_manually
    rw [h, hc]
    simp [hst, hact, hcap]
  · intro h
    have h2 := congrArg String.data h
    simp [String.data_append] at h2
  · intro h
    have h2 := congrArg String.data h
    simp [String.data_append] at h2
  · intro h
    have h2 := congrArg String.data h
    simp [String.data_append] at h2
  · decide
  · decide
  · decide

/-- Fixture for C3: a courier already at capacity (`current_orders =
max_orders = 1`) and an unassigned order. -/
def dbB : DB :=
  { zones := []
    couriers := [{ id := 1, is_active := true, current_orders := 1, max_orders := 1 }]
    orders := [mkOrder 2 OrderType.normal OrderStatus.created] }

/-- C3 witness: assigning to a courier already at `max_orders` fails with
the no-free-slots `ValueError`. -/
theorem manual_assign_precondition_order_witness :
    assign_courier_manually dbB 2 1 0 =
      .error (.valueError "У курьера нет свободных слотов") :=
  (manual_assign_precondition_order dbB 2 1 0).2.2.2.2.1
    (mkOrder 2 OrderType.normal OrderStatus.created)
    { id := 1, is_active := true, current_orders := 1, max_orders := 1 }
    (by decide) (by decide) (by decide) (by decide) (by decide)

/-- Fixture: an empty database (no zones, couriers or orders). -/
def dbEmpty : DB := { zones := [], couriers := [], orders := [] }

/-- C3 counterexample to the claim as stated: the four failure kinds are
*not* distinguishable without inspecting message text — a missing order and
a courier at capacity (claimed to raise the distinct classes OrderNotFound
and CapacityExceededError) both raise exceptions of the single class
`ValueError`, differing only in their message. -/
theorem manual_assign_same_exception_class :
    assign_courier_manually dbEmpty 1 1 0 =
      .error (.valueError ("Заказ " ++ toString (1 : Int) ++ " не найден")) ∧
    assign_courier_manually dbB 2 1 0 =
      .error (.valueError "У курьера нет свободных слотов") ∧
    PyError.className (.valueError ("Заказ " ++ toString (1 : Int) ++ " не найден")) =
      PyError.className (.valueError "У курьера нет свободных слотов") ∧
    PyError.valueError ("Заказ " ++ toString (1 : Int) ++ " не найден") ≠
      PyError.valueError "У курьера нет свободных слотов" :=
  ⟨rfl, rfl, rfl, by decide⟩

/-! ### C6: errors of automatic assignment -/

/-- C6 (amended): `assign_courier_automatically` on an existing order whose
type is not `special` fails with the `ValueError` "Автоматическое назначение
доступно только для заказов типа 'special'" regardless of courier
availability or order status (the type check precedes every check but
existence), and on a special-type order whose status is not `created` it
fails with the `ValueError` "Заказ уже назначен" before any courier is
consulted; both exceptions are of the same class `ValueError`, not distinct
classes. -/
theorem auto_assign_type_then_status_errors (db : DB) (oid : Int) (now : Timestamp) :
    (∀ o, getOrder db oid = some o → o.order_type ≠ OrderType.special →
      assign_courier_automatically db oid now =
        .error (.valueError
          "Автоматическое назначение доступно только для заказов типа 'special'")) ∧
    (∀ o, getOrder db oid = some o → o.order_type = OrderType.special →
      o.status ≠ OrderStatus.created →
      assign_courier_automatically db oid now =
        .error (.valueError "Заказ уже назначен")) ∧
    PyError.className
        (.valueError "Автоматическое назначение доступно только для заказов типа 'special'") =
      PyError.className (.valueError "Заказ уже назначен") := by
  refine ⟨?_, ?_, rfl⟩
  · intro o h hty
    unfold assign_courier_automatically
    rw [h]
    simp [hty]
  · intro o h hty hst
    unfold assign_courier_automatically
    rw [h]
    simp [hty, hst]

/-- Fixture for C6: an available active courier, a `normal` order (id 1) and
a `special` order already `accepted` (id 2). -/
def db6 : DB :=
  { zones := []
    couriers := [{ id := 1, is_active := true, current_orders := 0, max_orders := 5 }]
    orders := [mkOrder 1 OrderType.normal OrderStatus.created,
               mkOrder 2 OrderType.special OrderStatus.accepted] }

/-- C6 witness: concrete runs of both error paths on `db6`. -/
theorem auto_assign_type_then_status_errors_witness :
    assign_courier_automatically db6 1 0 =
      .error (.valueError
        "Автоматическое назначение доступно только для заказов типа 'special'") ∧
    assign_courier_automatically db6 2 0 = .error (.valueError "Заказ уже назначен") :=
  ⟨(auto_assign_type_then_status_errors db6 1 0).1
      (mkOrder 1 OrderType.normal OrderStatus.created) (by decide) (by decide),
    (auto_assign_type_then_status_errors db6 2 0).2.1
      (mkOrder 2 OrderType.special OrderStatus.accepted) (by decide) (by decide) (by decide)⟩

/-- C6 counterexample to the claim as stated: the code has no
`InvalidOperationError` or `InvalidStateError` classes — the wrong-type
failure and the wrong-status failure raise exceptions of the one class
`ValueError`, distinguishable only by message. -/
theorem auto_assign_same_exception_class :
    assign_courier_automatically db6 1 0 =
      .error (.valueError
        "Автоматическое назначение доступно только для заказов типа 'special'") ∧
    assign_courier_automatically db6 2 0 = .error (.valueError "Заказ уже назначен") ∧
    PyError.className
        (.valueError "Автоматическое назначение доступно только для заказов типа 'special'") =
      PyError.className (.valueError "Заказ уже назначен") ∧
    PyError.valueError
        "Автоматическое назначение доступно только для заказов типа 'special'" ≠
      PyError.valueError "Заказ уже назначен" :=
  ⟨rfl, rfl, rfl, by decide⟩


/-! ### C10: rating validation and single-write semantics -/

/-- The row `rate_courier` writes on success: the rating is stored, the
feedback only when it is a truthy (non-empty) string. -/
def ratedRow (o : Order) (rating : Int) (fb : Option String) : Order :=
  { o with
    courier_rating := some rating
    courier_feedback := if pyTruthy fb then fb else o.courier_feedback }

/-- C10 (amended): `rate_courier` rejects a rating outside `[1, 5]` with the
`ValueError` "Оценка должна быть от 1 до 5" before any lookup or mutation
(the check precedes the order lookup, so it fires on any database), fails
with the `ValueError` "Можно оценить только выполненный заказ" when the
order's status is neither `completed` nor `disputed`, fails with the
`ValueError` "Заказ уже оценен" when `courier_rating` is already non-null,
and otherwise stores the rating (and the feedback when it is a non-empty
string); a second in-range `rate_courier` call on the updated state fails
with the already-rated `ValueError` and the stored rating is still the one
written by the first call. All failures are of the single exception class
`ValueError`. -/
theorem rate_courier_single_write (db : DB) (oid rating : Int) (fb : Option String) :
    (¬ (1 ≤ rating ∧ rating ≤ 5) →
      rate_courier db oid rating fb = .error (.valueError "Оценка должна быть от 1 до 5")) ∧
    (∀ o, 1 ≤ rating → rating ≤ 5 → getOrder db oid = some o →
      o.status ≠ OrderStatus.completed → o.status ≠ OrderStatus.disputed →
      rate_courier db oid rating fb =
        .error (.valueError "Можно оценить только выполненный заказ")) ∧
    (∀ o, 1 ≤ rating → rating ≤ 5 → getOrder db oid = some o →
      (o.status = OrderStatus.completed ∨ o.status = OrderStatus.disputed) →
      o.courier_rating ≠ none →
      rate_courier db oid rating fb = .error (.valueError "Заказ уже оценен")) ∧
    (∀ o, 1 ≤ rating → rating ≤ 5 → getOrder db oid = some o →
      (o.status = OrderStatus.completed ∨ o.status = OrderStatus.disputed) →
      o.courier_rating = none →
      rate_courier db oid rating fb =
        .ok ({ db with orders := putOrder db.orders (ratedRow o rating fb) },
             ratedRow o rating fb)) ∧
    (∀ o rating2 fb2, 1 ≤ rating → rating ≤ 5 → getOrder db oid = some o →
      (o.status = OrderStatus.completed ∨ o.status = OrderStatus.disputed) →
      o.courier_rating = none →
      1 ≤ rating2 → rating2 ≤ 5 →
      rate_courier { db with orders := putOrder db.orders (ratedRow o rating fb) }
          oid rating2 fb2 = .error (.valueError "Заказ уже оценен") ∧
      getOrder { db with orders := putOrder db.orders (ratedRow o rating fb) } oid =
        some (ratedRow o rating fb) ∧
      (ratedRow o rating fb).courier_rating = some rating) := by
  refine ⟨?_, ?_, ?_, ?_, ?_⟩
  · intro hrange
    unfold rate_courier
    rw [if_pos hrange]
  · intro o h1 h2 h3 hst1 hst2
    unfold rate_courier
    rw [if_neg (by push_neg; exact ⟨h1, h2⟩)]
    rw [h3]
    simp [hst1, hst2]
  · intro o h1 h2 h3 hst hrated
    unfold rate_courier
    rw [if_neg (by push_neg; exact ⟨h1, h2⟩)]
    rw [h3]
    rcases hst with hst | hst <;> simp [hst, hrated]
  · intro o h1 h2 h3 hst hnone
    unfold rate_courier ratedRow
    rw [if_neg (by push_neg; exact ⟨h1, h2⟩)]
    rw [h3]
    rcases hst with hst | hst <;>
      by_cases hfb : pyTruthy fb = true <;>
        simp [hst, hnone, hfb]
  · intro o rating2 fb2 h1 h2 h3 hst hnone h4 h5
    have hget : getOrder { db with orders := putOrder db.orders (ratedRow o rating fb) } oid =
        some (ratedRow o rating fb) :=
      getOrder_putOrder h3 rfl
    refine ⟨?_, hget, rfl⟩
    unfold rate_courier
    rw [if_neg (by push_neg; exact ⟨h4, h5⟩)]
    rw [hget]
    rcases hst with hst | hst <;> simp [ratedRow, hst]

/-- Fixture for C10: a completed, not yet rated order. -/
def oD : Order := mkOrder 1 OrderType.normal OrderStatus.completed

/-- Fixture for C10: database holding only `oD`. -/
def dbD : DB := { zones := [], couriers := [], orders := [oD] }

/-- C10 witness: rating 6 is rejected; rating 3 on the completed unrated
order succeeds and stores `courier_rating = 3`. -/
theorem rate_courier_single_write_witness :
    rate_courier dbD 1 6 none = .error (.valueError "Оценка должна быть от 1 до 5") ∧
    rate_courier dbD 1 3 none =
      .ok ({ dbD with orders := putOrder dbD.orders (ratedRow oD 3 none) },
        ratedRow oD 3 none) ∧
    (ratedRow oD 3 none).courier_rating = some 3 :=
  ⟨(rate_courier_single_write dbD 1 6 none).1 (by decide),
    (rate_courier_single_write dbD 1 3 none).2.2.2.1 oD (by decide) (by decide)
      (by decide) (Or.inl rfl) rfl,
    rfl⟩

/-- C10 counterexample to the claim as stated: there are no `ValidationError`
or `InvalidStateError` classes — the out-of-range failure and the
already-rated failure raise the same class `ValueError` — and a supplied but
empty feedback string is not stored (Python truthiness), although the claim
says feedback is stored "when provided". -/
theorem rate_courier_exception_classes :
    rate_courier dbD 1 6 none = .error (.valueError "Оценка должна быть от 1 до 5") ∧
    rate_courier { dbD with orders := [ratedRow oD 3 none] } 1 4 none =
      .error (.valueError "Заказ уже оценен") ∧
    PyError.className (.valueError "Оценка должна быть от 1 до 5") =
      PyError.className (.valueError "Заказ уже оценен") ∧
    rate_courier dbD 1 3 (some "") =
      .ok ({ dbD with orders := putOrder dbD.orders (ratedRow oD 3 (some "")) },
        ratedRow oD 3 (some "")) ∧
    (ratedRow oD 3 (some "")).courier_feedback = none :=
  ⟨rfl, rfl, rfl, rfl, rfl⟩

/-! ### C9: timestamp side effects of `update_order_status` -/

/-- The row `update_order_status` persists: the requested status is always
stored; `accepted_at` is re-stamped on `accepted → picking_up` and
`delivered_at` is stamped on `in_progress → delivered` (both mapped
columns); every other `(old, new)` pair — including `delivered → completed`,
whose `confirmed_at` write goes to an unmapped attribute — changes no
timestamp column; a truthy (non-empty) `courier_notes` argument overwrites
the notes regardless of the transition. -/
def updatedRow (o : Order) (st : OrderStatus) (notes : Option String)
    (now : Timestamp) : Order :=
  { o with
    status := st
    accepted_at :=
      if st = OrderStatus.picking_up ∧ o.status = OrderStatus.accepted then some now
      else o.accepted_at
    delivered_at :=
      if st = OrderStatus.delivered ∧ o.status = OrderStatus.in_progress then some now
      else o.delivered_at
    courier_notes := if pyTruthy notes then notes else o.courier_notes }

/-- `update_order_status` on an existing order always commits exactly
`updatedRow`, and its outcome is the serialized row — except on the
`delivered → completed` pair, where response serialization raises after the
commit. -/
theorem update_order_status_spec (db : DB) (oid : Int) (st : OrderStatus)
    (notes : Option String) (now : Timestamp) (o : Order)
    (h : getOrder db oid = some o) :
    update_order_status db oid st notes now =
      ({ db with orders := putOrder db.orders (updatedRow o st notes now) },
        if st = OrderStatus.completed ∧ o.status = OrderStatus.delivered then
          .error confirmed_at_validation_error
        else .ok (updatedRow o st notes now)) := by
  unfold update_order_status updatedRow
  rw [h]
  cases hs : o.status <;> cases st <;>
    by_cases hn : pyTruthy notes = true <;>
      simp [hs, hn]

/-- C9 (amended): for every existing order, `update_order_status` commits
the requested status unconditionally; it stamps `delivered_at` exactly on
`in_progress → delivered` and *additionally re-stamps* `accepted_at` on
`accepted → picking_up`; the claimed `delivered → completed` stamping of
`confirmed_at` does not happen — that branch persists only the status,
because the write targets a column the `Order` model does not define, and
the call then raises a `ValidationError` serializing the response; any other
pair stores the status with no timestamp side effect, so skipping states
bypasses timestamp recording; a supplied `courier_notes` value is applied
regardless of transition validity only when it is truthy (non-empty) —
`delivery_time`, `courier_rating` and `price` are untouched. -/
theorem update_order_status_effect (db : DB) (oid : Int) (st : OrderStatus)
    (notes : Option String) (now : Timestamp) (o : Order)
    (h : getOrder db oid = some o) :
    (update_order_status db oid st notes now).1 =
      { db with orders := putOrder db.orders (updatedRow o st notes now) } ∧
    (update_order_status db oid st notes now).2 =
      (if st = OrderStatus.completed ∧ o.status = OrderStatus.delivered then
        .error confirmed_at_validation_error
      else .ok (updatedRow o st notes now)) ∧
    (updatedRow o st notes now).status = st ∧
    (updatedRow o st notes now).accepted_at =
      (if st = OrderStatus.picking_up ∧ o.status = OrderStatus.accepted then some now
        else o.accepted_at) ∧
    (updatedRow o st notes now).delivered_at =
      (if st = OrderStatus.delivered ∧ o.status = OrderStatus.in_progress then some now
        else o.delivered_at) ∧
    (updatedRow o st notes now).courier_notes =
      (if pyTruthy notes then notes else o.courier_notes) ∧
    (updatedRow o st notes now).delivery_time = o.delivery_time ∧
    (updatedRow o st notes now).courier_rating = o.courier_rating ∧
    (updatedRow o st notes now).price = o.price := by
  have hspec := update_order_status_spec db oid st notes now o h
  refine ⟨?_, ?_, rfl, rfl, rfl, rfl, rfl, rfl, rfl⟩
  · rw [hspec]
  · rw [hspec]

/-- Fixture for C9 witness: an `in_progress` order. -/
def o9w : Order := mkOrder 1 OrderType.normal OrderStatus.in_progress

/-- Fixture for C9 witness. -/
def db9w : DB := { zones := [], couriers := [], orders := [o9w] }

/-- C9 witness: updating the `in_progress` order to `delivered` at time 7
stamps `delivered_at = 7` and returns the row, while a direct
`created → delivered` update on a fresh order leaves `delivered_at` null
(skipping states bypasses the stamp). -/
theorem update_order_status_effect_witness :
    (update_order_status db9w 1 OrderStatus.delivered none 7).2 =
      .ok (updatedRow o9w OrderStatus.delivered none 7) ∧
    (updatedRow o9w OrderStatus.delivered none 7).delivered_at = some 7 ∧
    (updatedRow (mkOrder 2 OrderType.normal OrderStatus.created)
        OrderStatus.delivered none 7).delivered_at = none :=
  ⟨((update_order_status_effect db9w 1 OrderStatus.delivered none 7 o9w
      (by decide)).2.1).trans rfl, rfl, rfl⟩

/-- Fixture for C9 counterexample: an `accepted` order whose `accepted_at`
was stamped at time 5 and which carries courier notes. -/
def o9 : Order :=
  { mkOrder 1 OrderType.normal OrderStatus.accepted with
    accepted_at := some 5
    courier_notes := some "старая заметка" }

/-- Fixture for C9 counterexample. -/
def db9 : DB := { zones := [], couriers := [], orders := [o9] }

/-- The row the `accepted → picking_up` update of `o9` actually writes. -/
def o9b : Order :=
  { o9 with status := OrderStatus.picking_up, accepted_at := some 10 }

/-- Fixture for C9 counterexample: a delivered order. -/
def o9d : Order :=
  { mkOrder 1 OrderType.normal OrderStatus.delivered with delivered_at := some 0 }

/-- Fixture for C9 counterexample. -/
def db9d : DB := { zones := [], couriers := [], orders := [o9d] }

/-- C9 counterexample to the claim as stated: (i) the pair
`accepted → picking_up` — not one of the two pairs the claim allows a
timestamp effect for — overwrites `accepted_at` from 5 to the current time
10; (ii) a supplied empty `courier_notes` string is not applied (the old
notes survive); (iii) the `delivered → completed` update, which the claim
says stamps `confirmed_at`, persists only the status — the committed row
carries no confirmation timestamp — and raises a `ValidationError` instead
of returning the row. -/
theorem update_order_status_counterexample :
    o9.accepted_at = some 5 ∧
    update_order_status db9 1 OrderStatus.picking_up none 10 =
      ({ db9 with orders := [o9b] }, .ok o9b) ∧
    o9b.accepted_at = some 10 ∧
    some (10 : Int) ≠ some (5 : Int) ∧
    update_order_status db9 1 OrderStatus.picking_up (some "") 10 =
      ({ db9 with orders := [o9b] }, .ok o9b) ∧
    o9b.courier_notes = some "старая заметка" ∧
    update_order_status db9d 1 OrderStatus.completed none 10 =
      ({ db9d with orders := [{ o9d with status := OrderStatus.completed }] },
        .error confirmed_at_validation_error) :=
  ⟨rfl, rfl, rfl, by decide, rfl, rfl, rfl⟩

/-! ### C7: the auto-confirm sweep (code bug) -/

/-- Fixture for C7: an order delivered at time 0, i.e. 13 hours before the
sweep time `now7`. -/
def o7 : Order :=
  { mkOrder 1 OrderType.normal OrderStatus.delivered with delivered_at := some 0 }

/-- Fixture for C7. -/
def db7 : DB := { zones := [], couriers := [], orders := [o7] }

/-- Fixture for C7: a sweep time 13 hours after the delivery. -/
def now7 : Timestamp := 13 * 60 * 60

/-- C7: evaluation of the code at the failing input. Order `o7` is
delivered more than 12 hours before `now7`, with no confirmation recorded
(none can be: the schema has no confirmation columns), yet
`auto_confirm_orders` raises `AttributeError` while building its query,
changes no order and returns no count — the sweep never auto-confirms
anything. -/
theorem auto_confirm_orders_always_raises :
    o7.status = OrderStatus.delivered ∧
    o7.delivered_at = some 0 ∧
    (0 : Int) < now7 - twelve_hours ∧
    auto_confirm_orders db7 now7 = (db7, .error order_confirmed_at_attribute_error) :=
  ⟨rfl, rfl, by decide, rfl⟩

/-! ### C1: the courier capacity invariant -/

instance (op : Op) : Decidable op.isAssign :=
  match op with
  | .assignManual _ _ _ => isTrue trivial
  | .assignAuto _ _ => isTrue trivial
  | .createOrder _ => isFalse (fun h => h)
  | .updateStatus _ _ _ _ => isFalse (fun h => h)
  | .confirmOrder _ _ => isFalse (fun h => h)
  | .autoConfirm _ => isFalse (fun h => h)
  | .rateCourier _ _ _ => isFalse (fun h => h)

/-- One manual assignment preserves `0 ≤ current_orders ≤ max_orders` for
every courier: the increment happens only behind the
`current_orders >= max_orders` guard. -/
theorem step_assignManual_capacity (db : DB) (oid cid : Int) (now : Timestamp)
    (h : dbCapacityOk db) : dbCapacityOk (step db (.assignManual oid cid now)) := by
  simp only [step]
  cases hres : assign_courier_manually db oid cid now with
  | error e => exact h
  | ok p =>
    unfold assign_courier_manually at hres
    split at hres
    · exact absurd hres (by simp)
    · split at hres
      · exact absurd hres (by simp)
      · split at hres
        · exact absurd hres (by simp)
        · split at hres
          · exact absurd hres (by simp)
          · split at hres
            · exact absurd hres (by simp)
            · rename_i c h3 h4 h5
              obtain rfl := (Except.ok.inj hres).symm
              have hcap : courierCapacityOk c := h c (getCourier_mem_and_id h3).1
              have hcap2 : courierCapacityOk
                  { c with current_orders := c.current_orders + 1 } := by
                unfold courierCapacityOk at hcap ⊢
                simp only at hcap ⊢
                omega
              show dbCapacityOk { db with
                orders := _
                couriers := putCourier db.couriers
                  { c with current_orders := c.current_orders + 1 } }
              unfold dbCapacityOk putCourier
              exact forall_mem_replace
                (c := fun x => x.id =
                  ({ c with current_orders := c.current_orders + 1 } : Courier).id)
                (y := { c with current_orders := c.current_orders + 1 }) h hcap2

/-- C1: starting from any state where every courier satisfies
`0 ≤ current_orders ≤ max_orders`, the invariant still holds after any
sequence of `assign_courier_manually` / `assign_courier_automatically`
calls. -/
theorem capacity_invariant_under_assignments (ops : List Op) :
    ∀ db : DB, (∀ op ∈ ops, op.isAssign) → dbCapacityOk db →
      dbCapacityOk (run db ops) := by
  induction ops with
  | nil => intro db _ h; exact h
  | cons op ops ih =>
    intro db hops h
    have hrun : run db (op :: ops) = run (step db op) ops := rfl
    rw [hrun]
    refine ih (step db op) (fun x hx => hops x (List.mem_cons_of_mem op hx)) ?_
    have hop : op.isAssign := hops op (List.mem_cons_self op ops)
    cases op with
    | assignManual oid cid now => exact step_assignManual_capacity db oid cid now h
    | assignAuto oid now => rw [step_assignAuto_eq]; exact h
    | createOrder od => exact absurd hop (fun hh => hh)
    | updateStatus oid st notes now => exact absurd hop (fun hh => hh)
    | confirmOrder oid now => exact absurd hop (fun hh => hh)
    | autoConfirm now => exact absurd hop (fun hh => hh)
    | rateCourier oid rating fb => exact absurd hop (fun hh => hh)

/-- Fixture for C1 witness: a capacity-1 courier and two unassigned orders. -/
def dbW : DB :=
  { zones := []
    couriers := [{ id := 1, is_active := true, current_orders := 0, max_orders := 1 }]
    orders := [mkOrder 1 OrderType.normal OrderStatus.created,
               mkOrder 2 OrderType.normal OrderStatus.created] }

/-- Fixture for C1 witness: two manual assignments to the same courier (the
second must fail on capacity) with an automatic attempt in between. -/
def opsW : List Op :=
  [Op.assignManual 1 1 0, Op.assignAuto 2 3, Op.assignManual 2 1 5]

/-- C1 witness: the concrete assignment sequence on `dbW` keeps every
courier within capacity. -/
theorem capacity_invariant_witness :
    (∀ op ∈ opsW, op.isAssign) ∧ dbCapacityOk dbW ∧ dbCapacityOk (run dbW opsW) :=
  ⟨by decide, by decide,
    capacity_invariant_under_assignments opsW dbW (by decide) (by decide)⟩

/-! ### C8: the confirmation-stamp invariant (code bug) -/

/-- Fixture for C8: a delivered order. -/
def o8 : Order :=
  { mkOrder 1 OrderType.normal OrderStatus.delivered with delivered_at := some 0 }

/-- Fixture for C8. -/
def db8 : DB := { zones := [], couriers := [], orders := [o8] }

/-- C8: evaluation of the code at the failing input. The claimed invariant
constrains persisted `confirmed_at` / `autoconfirmed_at`, but the orders
table has no such columns, and every path that was meant to set one fails:
`confirm_order` and the `delivered → completed` status update commit only
`status = completed` — the committed row shown below records no confirmation
timestamp — and then raise a `ValidationError` serializing the unmapped
attribute, and the auto-confirm sweep raises `AttributeError` on every
call. No reachable state ever records a confirmation timestamp. -/
theorem confirmation_timestamps_never_persisted :
    confirm_order db8 1 10 =
      ({ db8 with orders := [{ o8 with status := OrderStatus.completed }] },
        .error confirmed_at_validation_error) ∧
    update_order_status db8 1 OrderStatus.completed none 10 =
      ({ db8 with orders := [{ o8 with status := OrderStatus.completed }] },
        .error confirmed_at_validation_error) ∧
    auto_confirm_orders db8 10 = (db8, .error order_confirmed_at_attribute_error) :=
  ⟨rfl, rfl, rfl⟩
